import Mathlib

/-!
Shallow embedding of the DSC2025 agricultural chatbot repository together
with theorems checking the behavioural claims of its specification.
Python floats are modelled as exact rationals, Python strings as Lean
strings (or as lists of their code points where character-level slicing
matters), and network or database effects as explicit outcome parameters
passed to the embedded functions.
-/

namespace DSC

/-- Weather condition record mirroring the `WeatherCondition` dataclass of
`tools/agriculture_weather_advisor.py`; timestamps are epoch seconds. -/
structure WeatherCondition where
  temperature : ℚ
  humidity : ℚ
  rainfall : ℚ
  wind_speed : ℚ
  description : String
  timestamp : ℚ
  feels_like : ℚ := 0
  pressure : ℚ := 0
  visibility : ℚ := 0
  uv_index : ℚ := 0
  dew_point : ℚ := 0
  wind_direction : ℚ := 0
  wind_direction_text : String := ""
  clouds : ℚ := 0
  sunrise : Option ℚ := none
  sunset : Option ℚ := none
  rain_probability : ℚ := 0
  location_name : String := ""
  deriving DecidableEq

/-- Agriculture advice record mirroring the `AgricultureAdvice` dataclass. -/
structure AgricultureAdvice where
  crop_type : String
  location : String
  weather_summary : String
  recommendations : List String
  warnings : List String
  optimal_activities : List String
  avoid_activities : List String
  confidence : ℚ
  deriving DecidableEq

/-- Crop threshold row of the `self.thresholds` table built in
`AgricultureWeatherAdvisor.__init__`; `rainfall_min` is optional because
only the rice row carries that key. -/
structure CropThresholds where
  temp_min : ℚ
  temp_max : ℚ
  humidity_min : ℚ
  humidity_max : ℚ
  rainfall_min : Option ℚ
  rainfall_max : ℚ
  wind_max : ℚ
  deriving DecidableEq

/-- Lower-casing of a Python string, character by character; models
`str.lower` (the characters the claims exercise are ASCII or already
lower-case). -/
def pyLower (s : String) : String := ⟨s.data.map Char.toLower⟩

/-- Threshold table from `AgricultureWeatherAdvisor.__init__`. -/
def cropThresholds : String → Option CropThresholds
  | "coffee" => some ⟨15, 30, 60, 80, none, 200, 15⟩
  | "rice" => some ⟨20, 35, 70, 90, some 100, 400, 20⟩
  | "potato" => some ⟨15, 25, 65, 85, none, 150, 25⟩
  | "pepper" => some ⟨20, 32, 60, 85, none, 250, 15⟩
  | _ => none

/-- Result dictionary built by `analyze_weather_for_crop`. -/
structure CropAnalysis where
  crop : String
  suitable : Bool
  issues : List String
  recommendations : List String
  score : ℤ
  deriving DecidableEq

/-- Crop key actually analysed: `analyze_weather_for_crop` lower-cases the
requested crop and falls back to `"coffee"` when the key is not in the
threshold table. -/
def effectiveCropKey (cropType : String) : String :=
  if (cropThresholds (pyLower cropType)).isSome then pyLower cropType
  else "coffee"

/-- Threshold row used by `analyze_weather_for_crop` for a requested crop
(the `getD` default is unreachable because `effectiveCropKey` always names
a table row). -/
def effectiveThresholds (cropType : String) : CropThresholds :=
  (cropThresholds (effectiveCropKey cropType)).getD
    ⟨15, 30, 60, 80, none, 200, 15⟩

/-- Temperature block of `analyze_weather_for_crop` (lines 222-232). -/
def temperatureAnalysis (weather : WeatherCondition) (t : CropThresholds)
    (a : CropAnalysis) : CropAnalysis :=
  if weather.temperature < t.temp_min then
    { a with
      suitable := false,
      issues := a.issues ++
        ["Nhiệt độ quá thấp (" ++ toString weather.temperature ++ "°C)"],
      recommendations := a.recommendations ++
        ["Che chắn cây trồng, tưới nước ấm"],
      score := a.score - 30 }
  else if weather.temperature > t.temp_max then
    { a with
      suitable := false,
      issues := a.issues ++
        ["Nhiệt độ quá cao (" ++ toString weather.temperature ++ "°C)"],
      recommendations := a.recommendations ++
        ["Tăng tưới nước, che bóng mát"],
      score := a.score - 25 }
  else a

/-- Humidity block of `analyze_weather_for_crop` (lines 234-242). -/
def humidityAnalysis (weather : WeatherCondition) (t : CropThresholds)
    (a : CropAnalysis) : CropAnalysis :=
  if weather.humidity < t.humidity_min then
    { a with
      issues := a.issues ++
        ["Độ ẩm thấp (" ++ toString weather.humidity ++ "%)"],
      recommendations := a.recommendations ++ ["Tăng tưới phun sương"],
      score := a.score - 15 }
  else if weather.humidity > t.humidity_max then
    { a with
      issues := a.issues ++
        ["Độ ẩm cao (" ++ toString weather.humidity ++ "%)"],
      recommendations := a.recommendations ++
        ["Tăng thông gió, cẩn thận bệnh nấm"],
      score := a.score - 10 }
  else a

/-- Condition of the rainfall block's first branch: the table has a
`rainfall_min` key and the rainfall is below it (only rice has the key). -/
def rainfallBelowMin (weather : WeatherCondition) (t : CropThresholds) :
    Bool :=
  match t.rainfall_min with
  | some rmin => decide (weather.rainfall < rmin)
  | none => false

/-- Rainfall block of `analyze_weather_for_crop` (lines 244-252). -/
def rainfallAnalysis (weather : WeatherCondition) (t : CropThresholds)
    (a : CropAnalysis) : CropAnalysis :=
  if rainfallBelowMin weather t then
    { a with
      issues := a.issues ++ ["Lượng mưa không đủ"],
      recommendations := a.recommendations ++ ["Bổ sung tưới nước"],
      score := a.score - 20 }
  else if weather.rainfall > t.rainfall_max then
    { a with
      issues := a.issues ++ ["Mưa quá nhiều"],
      recommendations := a.recommendations ++
        ["Thoát nước, phòng ngừa úng"],
      score := a.score - 20 }
  else a

/-- Wind block of `analyze_weather_for_crop` (lines 254-258). -/
def windAnalysis (weather : WeatherCondition) (t : CropThresholds)
    (a : CropAnalysis) : CropAnalysis :=
  if weather.wind_speed > t.wind_max then
    { a with
      issues := a.issues ++
        ["Gió mạnh (" ++ toString weather.wind_speed ++ " km/h)"],
      recommendations := a.recommendations ++ ["Chằng chống cây trồng"],
      score := a.score - 15 }
  else a

/-- Embedding of `AgricultureWeatherAdvisor.analyze_weather_for_crop`
(lines 198-261): sequential penalty deductions from an initial score of
100, with the floor `max(0, score)` applied at the end. -/
def analyzeWeatherForCrop (weather : WeatherCondition) (cropType : String) :
    CropAnalysis :=
  let t := effectiveThresholds cropType
  let a0 : CropAnalysis := ⟨effectiveCropKey cropType, true, [], [], 100⟩
  let a4 := windAnalysis weather t (rainfallAnalysis weather t
    (humidityAnalysis weather t (temperatureAnalysis weather t a0)))
  { a4 with score := max 0 a4.score }

/-- Compass labels of `_get_wind_direction_text`. -/
def windDirections : List String :=
  ["Bắc", "Bắc Đông Bắc", "Đông Bắc", "Đông Đông Bắc",
   "Đông", "Đông Đông Nam", "Đông Nam", "Nam Đông Nam",
   "Nam", "Nam Tây Nam", "Tây Nam", "Tây Tây Nam",
   "Tây", "Tây Tây Bắc", "Tây Bắc", "Bắc Tây Bắc"]

/-- Truncation toward zero, the semantics of the Python builtin `int()`
applied to a float. -/
def pythonInt (q : ℚ) : ℤ := if 0 ≤ q then ⌊q⌋ else -⌊-q⌋

/-- Compass index from `_get_wind_direction_text` line 279:
`int((degrees + 11.25) / 22.5) % 16`; the Lean `%` on integers agrees with
the Python `%` (both return a value in `[0, 16)` here). -/
def windDirIndex (degrees : ℚ) : ℤ :=
  pythonInt ((degrees + 45/4) / (45/2)) % 16

/-- Embedding of `_get_wind_direction_text` (lines 271-280). -/
def getWindDirectionText (degrees : ℚ) : String :=
  windDirections.getD (windDirIndex degrees).toNat ""

/-- Index mapping written the way the specification words it, with
`round` in place of the truncation the code performs; kept separate so the
two can be compared. -/
def specRoundWindDirIndex (degrees : ℚ) : ℤ :=
  round ((degrees + 45/4) / (45/2)) % 16

/-- Midnight (start of day) of an epoch-seconds instant; models the
`datetime.replace(hour=..., minute=..., second=0, microsecond=0)` base. -/
def dayStart (now : ℚ) : ℚ := (⌊now / 86400⌋ : ℚ) * 86400

/-- Embedding of `_get_demo_weather_data` (lines 516-539): the fixed demo
record returned whenever the weather provider is unavailable. -/
def demoWeatherData (now : ℚ) (location : String) : WeatherCondition :=
  { temperature := 28
    feels_like := 32
    humidity := 78
    rainfall := 0
    wind_speed := 125/10
    wind_direction := 225
    wind_direction_text := "SW"
    pressure := 1013
    visibility := 85/10
    uv_index := 6
    clouds := 45
    dew_point := 242/10
    description := "Partly cloudy"
    timestamp := now
    sunrise := some (dayStart now + 6 * 3600 + 12 * 60)
    sunset := some (dayStart now + 18 * 3600 + 8 * 60)
    rain_probability := 15
    location_name := location ++ ", VN" }

/-- Fields of the provider JSON payload that `get_current_weather` reads;
optional fields model the `dict.get` defaults of the code. -/
structure ApiWeatherData where
  temp : ℚ
  humidity : ℚ
  feelsLike : ℚ
  pressure : ℚ
  rain1h : Option ℚ
  windSpeed : ℚ
  windDeg : Option ℚ
  weatherDescription : String
  clouds : ℚ
  visibilityMeters : Option ℚ
  sunrise : ℚ
  sunset : ℚ
  name : String
  deriving DecidableEq

/-- Outcome of one weather-provider HTTP call: either the request raised,
or it returned a status code and a payload. -/
inductive ApiOutcome where
  | exn
  | response (status : ℤ) (data : ApiWeatherData)
  deriving DecidableEq

/-- Provider-call outcomes that take the fallback path of
`get_current_weather`: an exception or a non-200 status. -/
def apiOutcomeFailed : ApiOutcome → Bool
  | .exn => true
  | .response status _ => decide (status ≠ 200)

/-- Embedding of `get_current_weather` (lines 85-150). The Magnus dew-point
formula uses a natural logarithm, so the dew-point computation is passed in
as a function parameter; the claims never depend on its value. -/
def getCurrentWeather (dewPoint : ℚ → ℚ → ℚ) (now : ℚ) (location : String)
    (outcome : ApiOutcome) : Option WeatherCondition :=
  match outcome with
  | .exn => some (demoWeatherData now location)
  | .response status data =>
    if status = 200 then
      let windDeg := data.windDeg.getD 0
      let rainProb :=
        if data.clouds > 50 then min (data.clouds * (8/10)) 100 else 0
      some
        { temperature := data.temp
          humidity := data.humidity
          rainfall := data.rain1h.getD 0
          wind_speed := data.windSpeed * (36/10)
          description := data.weatherDescription
          timestamp := now
          feels_like := data.feelsLike
          pressure := data.pressure
          visibility := data.visibilityMeters.getD 10000 / 1000
          dew_point := dewPoint data.temp data.humidity
          wind_direction := windDeg
          wind_direction_text := getWindDirectionText windDeg
          clouds := data.clouds
          sunrise := some data.sunrise
          sunset := some data.sunset
          rain_probability := rainProb
          location_name := data.name
          uv_index := 0 }
    else some (demoWeatherData now location)

/-- Weather reading 35°C, 70 %, 50 mm, 10 km/h from the specification's
coffee scoring example. -/
def coffeeHotReading : WeatherCondition :=
  { temperature := 35, humidity := 70, rainfall := 50, wind_speed := 10,
    description := "", timestamp := 0 }

/-- Weather reading 22°C, 70 %, 50 mm, 10 km/h from the specification's
coffee scoring example. -/
def coffeeMildReading : WeatherCondition :=
  { temperature := 22, humidity := 70, rainfall := 50, wind_speed := 10,
    description := "", timestamp := 0 }

/-- Weather reading with in-range temperature for coffee but humidity,
rainfall and wind all violating the coffee thresholds. -/
def coffeeExtremeReading : WeatherCondition :=
  { temperature := 22, humidity := 100, rainfall := 1000, wind_speed := 100,
    description := "", timestamp := 0 }

/-- Boolean substring test on code-point lists; models the Python `in`
operator on strings. -/
def listContainsSub (needle : List Char) : List Char → Bool
  | [] => needle.isEmpty
  | c :: rest => needle.isPrefixOf (c :: rest) || listContainsSub needle rest

/-- Substring test on strings, models `sub in hay` in Python. -/
def strContains (hay sub : String) : Bool := listContainsSub sub.data hay.data

/-- Python `list(set(xs))`: the list deduplicated, order unspecified; the
embedding keeps first occurrences. -/
def pySetList (xs : List String) : List String := xs.eraseDups

/-- Recommendation/activity pair returned by `_get_crop_specific_advice`. -/
structure CropAdvicePack where
  recommendations : List String
  activities : List String
  deriving DecidableEq

/-- Embedding of `_get_crop_specific_advice` (lines 448-501). -/
def cropSpecificAdvice (cropType : String) (weather : WeatherCondition) :
    CropAdvicePack :=
  let cropLower := pyLower cropType
  if strContains cropLower "cà phê" || strContains cropLower "coffee" then
    { recommendations :=
        ["Kiểm tra độ ẩm đất thường xuyên",
         "Theo dõi sâu bệnh do thời tiết",
         "Điều chỉnh tán cây phù hợp"],
      activities :=
        [if weather.temperature < 30 then "Thu hoạch cà phê chín"
         else "Chờ thời tiết mát hơn để thu hoạch",
         if weather.wind_speed < 15 then "Tỉa cành cà phê"
         else "Hoãn việc tỉa cành"] }
  else if strContains cropLower "lúa" || strContains cropLower "rice" then
    { recommendations :=
        ["Kiểm tra mực nước ruộng",
         "Theo dõi sâu bệnh lúa",
         "Đảm bảo thoát nước tốt"],
      activities :=
        [if 20 ≤ weather.temperature ∧ weather.temperature ≤ 30 then
          "Gieo sạ lúa" else "Chờ nhiệt độ phù hợp",
         if weather.rainfall < 10 then "Bón phân cho lúa"
         else "Hoãn bón phân"] }
  else if strContains cropLower "khoai" || strContains cropLower "potato" then
    { recommendations :=
        ["Kiểm tra độ ẩm đất",
         "Đắp luống cao tránh úng",
         "Theo dõi bệnh nấm"],
      activities :=
        [if 15 ≤ weather.temperature ∧ weather.temperature ≤ 25 then
          "Trồng khoai tây" else "Chờ nhiệt độ phù hợp",
         if weather.rainfall < 5 then "Thu hoạch khoai"
         else "Hoãn thu hoạch"] }
  else
    { recommendations :=
        ["Theo dõi thời tiết định kỳ",
         "Điều chỉnh tưới nước phù hợp",
         "Phòng trừ sâu bệnh"],
      activities := ["Chăm sóc cây trồng thường xuyên"] }

/-- Confidence computation block of `_analyze_weather_for_agriculture`
(lines 661-668): a base of 0.8 lowered by extreme temperature, humidity
and wind readings. -/
def adviceConfidence (weather : WeatherCondition) : ℚ :=
  let c0 : ℚ := 8/10
  let c1 := if weather.temperature > 35 ∨ weather.temperature < 10
    then c0 - 2/10 else c0
  let c2 := if weather.humidity > 90 ∨ weather.humidity < 20
    then c1 - 1/10 else c1
  if weather.wind_speed > 30 then c2 - 1/10 else c2

/-- Embedding of `_analyze_weather_for_agriculture` (lines 605-687), the
analysis used by the later-defined `generate_agriculture_advice`; its
`forecast` argument is accepted but never read, as in the code. -/
def analyzeWeatherForAgriculture (weather : WeatherCondition)
    (cropType location : String)
    (forecast : Option (List WeatherCondition) := none) : AgricultureAdvice :=
  let _ := forecast
  let recommendations : List String := []
  let warnings : List String := []
  let optimal : List String := []
  let avoid : List String := []
  let (warnings, avoid, recommendations, optimal) :=
    if weather.temperature > 35 then
      (warnings ++ ["Nhiệt độ quá cao - Cần che chắn cho cây trồng"],
       avoid ++ ["Tránh làm việc ngoài trời vào giữa ngày"],
       recommendations ++ ["Tưới nước nhiều hơn để làm mát"], optimal)
    else if weather.temperature < 15 then
      (warnings ++ ["Nhiệt độ thấp - Có thể ảnh hưởng đến sinh trưởng"],
       avoid, recommendations ++ ["Che chắn cây trồng khỏi gió lạnh"],
       optimal)
    else
      (warnings, avoid, recommendations,
       optimal ++ ["Nhiệt độ phù hợp cho các hoạt động nông nghiệp"])
  let (warnings, avoid, recommendations) :=
    if weather.humidity > 80 then
      (warnings ++ ["Độ ẩm cao - Nguy cơ bệnh nấm"],
       avoid ++ ["Tránh tưới nước vào buổi tối"],
       recommendations ++ ["Tăng cường thông gió"])
    else if weather.humidity < 30 then
      (warnings ++ ["Độ ẩm thấp - Cây có thể bị khô"], avoid,
       recommendations ++ ["Tăng tần suất tưới nước"])
    else (warnings, avoid, recommendations)
  let (warnings, avoid, recommendations) :=
    if weather.wind_speed > 25 then
      (warnings ++ ["Gió mạnh - Có thể gãy cành cây"],
       avoid ++ ["Tránh phun thuốc khi gió mạnh"], recommendations)
    else if weather.wind_speed < 5 then
      (warnings, avoid,
       recommendations ++ ["Gió nhẹ - Thích hợp cho phun thuốc"])
    else (warnings, avoid, recommendations)
  let (warnings, recommendations) :=
    if weather.uv_index > 7 then
      (warnings ++ ["Chỉ số UV cao - Bảo vệ công nhân"],
       recommendations ++ ["Làm việc vào sáng sớm hoặc chiều muộn"])
    else (warnings, recommendations)
  let (warnings, recommendations) :=
    if weather.pressure < 1000 then
      (warnings ++ ["Áp suất thấp - Có thể có mưa"],
       recommendations ++ ["Chuẩn bị che chắn cây trồng"])
    else (warnings, recommendations)
  let cropAdvice := cropSpecificAdvice cropType weather
  let recommendations := recommendations ++ cropAdvice.recommendations
  let optimal := optimal ++ cropAdvice.activities
  let weatherSummary :=
    "Nhiệt độ: " ++ toString weather.temperature ++ "°C (cảm giác " ++
    toString weather.feels_like ++ "°C), Độ ẩm: " ++
    toString weather.humidity ++ "%, Gió: " ++
    toString weather.wind_speed ++ "km/h, UV: " ++
    toString weather.uv_index ++ " - " ++ weather.description
  { crop_type := cropType
    location := location
    weather_summary := weatherSummary
    recommendations := pySetList recommendations
    warnings := pySetList warnings
    optimal_activities := pySetList optimal
    avoid_activities := pySetList avoid
    confidence := adviceConfidence weather }

/-- Embedding of the later-defined `generate_agriculture_advice`
(lines 689-717), the definition Python keeps when the class body rebinds
the name; the forecast provider result is a parameter, and nothing in the
body can raise, so the except branch returning `None` is unreachable. -/
def generateAgricultureAdvice (dewPoint : ℚ → ℚ → ℚ) (now : ℚ)
    (location : String) (cropType : String) (includeForecast : Bool)
    (outcome : ApiOutcome) (forecast : List WeatherCondition) :
    Option AgricultureAdvice :=
  let weather := (getCurrentWeather dewPoint now location outcome).getD
    (demoWeatherData now location)
  let forecastUsed := if includeForecast then some forecast else none
  some (analyzeWeatherForAgriculture weather cropType location forecastUsed)

/-- Per-turn pipeline state fields that `_route_after_intent_analysis`
reads from `ChatbotState` (`graph/graph_builder.py`); absent keys are
modelled with `Option` and the `dict.get` defaults. -/
structure RoutingState where
  errors : List String := []
  intent : Option String := none
  confidence : Option ℚ := none

/-- Sentinel node name of the graph library's `END` constant. -/
def END : String := "__end__"

/-- Node name constant `ACTION_EXECUTION_NODE` from `config/constants.py`. -/
def ACTION_EXECUTION_NODE : String := "action_execution"

/-- Error strings `_route_after_intent_analysis` considers critical: the
lower-cased text contains "validation" or "critical". -/
def isCriticalError (e : String) : Bool :=
  strContains (pyLower e) "validation" || strContains (pyLower e) "critical"

/-- Embedding of `_route_after_intent_analysis` (lines 166-199). -/
def routeAfterIntentAnalysis (state : RoutingState) : String :=
  let errors := state.errors
  let intent := state.intent
  let confidence := state.confidence.getD 0
  let criticalErrors := errors.filter isCriticalError
  if ¬ criticalErrors.isEmpty then END
  else if intent = none ∨ confidence = 0 then END
  else ACTION_EXECUTION_NODE

/-- Vector store flag set unconditionally in `VectorStore.__init__`. -/
def useVietnameseModel : Bool := true

/-- Per-tier text ceiling chosen in `VectorStore.__init__`: 400 characters
under the Vietnamese model, 800 otherwise. -/
def maxTextLength : ℕ := if useVietnameseModel then 400 else 800

/-- Embedding of `VectorStore._truncate_text` (lines 72-77), on the list
of code points of the text (Python slices strings by code point). -/
def truncateText (maxLen : ℕ) (text : List Char) : List Char :=
  if text.length ≤ maxLen then text
  else text.take (maxLen - 3) ++ "...".data

/-- Python `str.strip`: whitespace removed from both ends. -/
def pyStrip (l : List Char) : List Char :=
  ((l.dropWhile Char.isWhitespace).reverse.dropWhile Char.isWhitespace).reverse

/-- Document passed to `VectorStore.add_documents`. -/
structure IngestDocument where
  page_content : List Char
  metadata : List (String × String)
  deriving DecidableEq

/-- Filtering and truncation loop of `VectorStore.add_documents`
(lines 126-136): documents whose stripped content is empty are dropped,
the rest are stored with content truncated to the tier ceiling. -/
def validDocuments (maxLen : ℕ) (documents : List IngestDocument) :
    List IngestDocument :=
  documents.filterMap fun doc =>
    if (pyStrip doc.page_content).isEmpty then none
    else some { doc with page_content := truncateText maxLen doc.page_content }

/-- Composite result dictionary returned by `search_knowledge_base`. -/
structure SearchResult where
  context : String
  sources : List String
  results_count : ℕ
  avg_confidence : ℚ
  max_confidence : ℚ
  has_results : Bool
  error : Option String
  deriving DecidableEq

/-- Behaviour of the document retriever during one
`search_knowledge_base` call: each of the three delegated calls either
returns a value or raises (`Except.error` carries the exception text). -/
structure RetrieverBehavior where
  relevantContext : Except String String
  documentSources : Except String (List String)
  resultsWithScores : Except String (List (String × ℚ))

/-- Python `max(xs)` over a nonempty list of rationals (0 when empty; the
code only calls it on nonempty lists). -/
def pyMax : List ℚ → ℚ
  | [] => 0
  | x :: xs => xs.foldl max x

/-- Embedding of `SearchTools.search_knowledge_base` (lines 17-98): the
three retriever calls run in order, any raise is caught and converted to
the zeroed shape carrying the exception text; otherwise confidence
statistics and the `has_results` flag are computed. -/
def searchKnowledgeBase (r : RetrieverBehavior) : SearchResult :=
  let attempt : Except String (String × List String × List (String × ℚ)) := do
    let context ← r.relevantContext
    let sources ← r.documentSources
    let results ← r.resultsWithScores
    pure (context, sources, results)
  match attempt with
  | .error e =>
    { context := ""
      sources := []
      results_count := 0
      avg_confidence := 0
      max_confidence := 0
      has_results := false
      error := some e }
  | .ok (context, sources, results) =>
    let scores := results.map (·.2)
    let avgConfidence :=
      if ¬ results.isEmpty then scores.sum / (scores.length : ℚ) else 0
    let maxConfidence := if ¬ results.isEmpty then pyMax scores else 0
    { context := context
      sources := sources
      results_count := results.length
      avg_confidence := avgConfidence
      max_confidence := maxConfidence
      has_results := decide (context ≠ "") &&
        decide (¬ (pyStrip context.data).isEmpty)
      error := none }

/-- Count of non-overlapping occurrences of `needle` in `hay`, scanning
left to right; the semantics of Python `str.count`. -/
def countOccs (needle hay : List Char) : ℕ :=
  if h : needle = [] then hay.length + 1
  else
    match hay with
    | [] => 0
    | c :: rest =>
      if needle.isPrefixOf (c :: rest) then
        countOccs needle ((c :: rest).drop needle.length) + 1
      else countOccs needle rest
termination_by hay.length
decreasing_by
  · simp only [List.length_drop, List.length_cons]
    cases needle with
    | nil => exact absurd rfl h
    | cons a as => simp only [List.length_cons]; omega
  · simp only [List.length_cons]; omega

/-- Character replacement table of `AgricultureDomainFilter.normalize_text`
(`tools/domain_filter.py`), removing Vietnamese diacritics. -/
def diacriticReplacements : List (Char × Char) :=
  [('à','a'), ('á','a'), ('ả','a'), ('ã','a'), ('ạ','a'),
   ('ă','a'), ('ắ','a'), ('ằ','a'), ('ẳ','a'), ('ẵ','a'), ('ặ','a'),
   ('â','a'), ('ấ','a'), ('ầ','a'), ('ẩ','a'), ('ẫ','a'), ('ậ','a'),
   ('è','e'), ('é','e'), ('ẻ','e'), ('ẽ','e'), ('ẹ','e'),
   ('ê','e'), ('ế','e'), ('ề','e'), ('ể','e'), ('ễ','e'), ('ệ','e'),
   ('ì','i'), ('í','i'), ('ỉ','i'), ('ĩ','i'), ('ị','i'),
   ('ò','o'), ('ó','o'), ('ỏ','o'), ('õ','o'), ('ọ','o'),
   ('ô','o'), ('ố','o'), ('ồ','o'), ('ổ','o'), ('ỗ','o'), ('ộ','o'),
   ('ơ','o'), ('ớ','o'), ('ờ','o'), ('ở','o'), ('ỡ','o'), ('ợ','o'),
   ('ù','u'), ('ú','u'), ('ủ','u'), ('ũ','u'), ('ụ','u'),
   ('ư','u'), ('ứ','u'), ('ừ','u'), ('ử','u'), ('ữ','u'), ('ự','u'),
   ('ỳ','y'), ('ý','y'), ('ỷ','y'), ('ỹ','y'), ('ỵ','y'),
   ('đ','d')]

/-- Embedding of `AgricultureDomainFilter.normalize_text`: lower-case,
then apply every single-character replacement of the table in order. -/
def normalizeText (t : List Char) : List Char :=
  diacriticReplacements.foldl
    (fun acc p => acc.map fun c => if c = p.1 then p.2 else c)
    (t.map Char.toLower)

/-- Keyword and related-term lists of one crop of the
`self.crop_entities` catalog in `AgricultureDomainFilter.__init__`. -/
structure CropEntityData where
  keywords : List String
  related_terms : List String
  deriving DecidableEq

/-- Crop entity catalog of `AgricultureDomainFilter.__init__`. -/
def cropEntities : List (String × CropEntityData) :=
  [("cà_phê",
    { keywords :=
        ["cà phê", "ca phe", "coffee", "arabica", "robusta",
         "café", "cây cà phê", "cà-phê", "ca-phe"],
      related_terms :=
        ["cherry", "nhân", "vỏ quả", "xử lý ướt", "xử lý khô",
         "rang", "pha chế", "espresso", "phin"] }),
   ("lúa",
    { keywords :=
        ["lúa", "lua", "gạo", "rice", "ruộng lúa", "cây lúa",
         "lúa nước", "lúa tẻ", "lúa nàng hương"],
      related_terms :=
        ["thóc", "cối xay", "máy gặt", "cấy", "gieo sạ",
         "ruộng", "đồng ruộng", "mùa vụ", "mùa chiêm", "mùa mùa"] }),
   ("hồ_tiêu",
    { keywords :=
        ["hồ tiêu", "ho tieu", "pepper", "tiêu", "tieu",
         "cây hồ tiêu", "hạt tiêu", "tiêu đen", "tiêu trắng"],
      related_terms :=
        ["giàn leo", "trụ đỡ", "dây leo", "hạt", "quả",
         "thu hoạch tiêu", "sấy khô", "phơi"] }),
   ("ngô",
    { keywords :=
        ["ngô", "ngo", "corn", "maize", "bắp", "cây ngô",
         "ngô sinh khối", "ngô lai", "ngô đường"],
      related_terms :=
        ["bắp non", "hạt ngô", "lõi ngô", "thân ngô", "lá ngô",
         "tua ngô", "râu ngô", "silage", "thức ăn chăn nuôi"] }),
   ("khoai_tây",
    { keywords :=
        ["khoai tây", "khoai tay", "potato", "khoai", "tây",
         "cây khoai tây", "củ khoai tây", "khoai-tây"],
      related_terms :=
        ["củ", "giống khoai", "trồng khoai", "thu hoạch khoai",
         "bảo quản khoai", "kho chứa", "mầm", "nảy mầm"] })]

/-- Document passed to `calculate_document_relevance`; `filename` models
`metadata.get('filename', '')`. -/
structure FilterDocument where
  page_content : String
  filename : String
  deriving DecidableEq

/-- Contribution of one primary keyword inside
`calculate_document_relevance`: `0.6 * min(occurrences / 5, 1)` when the
keyword occurs in the content, plus a flat `0.8` when it occurs in the
filename. -/
def keywordContribution (content filename : List Char) (kw : String) : ℚ :=
  let k := normalizeText kw.data
  let m := countOccs k content
  (if 0 < m then (6/10) * min ((m : ℚ) / 5) 1 else 0) +
    (if listContainsSub k filename then 8/10 else 0)

/-- Contribution of one related term inside
`calculate_document_relevance`: a flat `0.2` on a content match. -/
def relatedContribution (content : List Char) (tm : String) : ℚ :=
  if listContainsSub (normalizeText tm.data) content then 2/10 else 0

/-- Per-crop score of `calculate_document_relevance`, capped at 1. -/
def cropScore (content filename : List Char) (data : CropEntityData) : ℚ :=
  min ((data.keywords.map (keywordContribution content filename)).sum +
    (data.related_terms.map (relatedContribution content)).sum) 1

/-- Embedding of
`AgricultureDomainFilter.calculate_document_relevance` (lines 147-199). -/
def calculateDocumentRelevance (doc : FilterDocument)
    (queryCrops : List String) : ℚ :=
  if queryCrops.isEmpty then 1
  else
    let content := normalizeText doc.page_content.data
    let filename := normalizeText doc.filename.data
    let totalScore := (queryCrops.map fun crop =>
      cropScore content filename
        ((cropEntities.lookup crop).getD ⟨[], []⟩)).sum
    let maxPossibleScore : ℚ := queryCrops.length
    if 0 < maxPossibleScore then totalScore / maxPossibleScore else 1

/-- Calendar date, the `year/month/day` part of a `datetime`. -/
structure Date where
  year : ℕ
  month : ℕ
  day : ℕ
  deriving DecidableEq

/-- Gregorian leap-year rule. -/
def isLeapYear (y : ℕ) : Bool :=
  y % 4 = 0 && (y % 100 ≠ 0 || y % 400 = 0)

/-- Number of days of a month, as `datetime` validates them. -/
def daysInMonth (y m : ℕ) : ℕ :=
  if m = 2 then (if isLeapYear y then 29 else 28)
  else if m = 4 ∨ m = 6 ∨ m = 9 ∨ m = 11 then 30
  else 31

/-- Python `datetime.replace(day=newDay)`: succeeds only when the new day
is a valid day of the current month, otherwise raises `ValueError`
(modelled as `none`). -/
def replaceDay (d : Date) (newDay : ℤ) : Option Date :=
  if 1 ≤ newDay ∧ newDay ≤ (daysInMonth d.year d.month : ℤ) then
    some { d with day := newDay.toNat }
  else none

/-- Zero-padded two-digit rendering of a month or day number. -/
def pad2 (n : ℕ) : String := if n < 10 then "0" ++ toString n else toString n

/-- Zero-padded four-digit rendering of a year. -/
def pad4 (n : ℕ) : String :=
  if n < 10 then "000" ++ toString n
  else if n < 100 then "00" ++ toString n
  else if n < 1000 then "0" ++ toString n
  else toString n

/-- ISO rendering of a date at midnight, the `cutoff_str` of
`clear_old_sessions` (the cutoff datetime always has time 00:00:00). -/
def isoformatMidnight (d : Date) : String :=
  pad4 d.year ++ "-" ++ pad2 d.month ++ "-" ++ pad2 d.day ++ "T00:00:00"

/-- Lexicographic order on code points, the comparison SQLite applies to
the TEXT column `updated_at` (ISO strings compare chronologically). -/
def strLtB : List Char → List Char → Bool
  | [], [] => false
  | [], _ :: _ => true
  | _ :: _, [] => false
  | a :: as, b :: bs =>
    if a < b then true else if b < a then false else strLtB as bs

/-- One row of the `chat_sessions` table, restricted to the fields
`clear_old_sessions` touches. -/
structure SessionRow where
  session_id : String
  updated_at : String
  deriving DecidableEq

/-- Embedding of `ChatHistoryManager.clear_old_sessions` (lines 245-265):
the cutoff is computed by the naive day replacement
`cutoff_date.replace(day=cutoff_date.day - days)` before any database
access; when that raises, the handler returns 0 and the table is left
untouched. Returns the table after the call and the returned count. -/
def clearOldSessions (rows : List SessionRow) (today : Date) (days : ℤ) :
    List SessionRow × ℕ :=
  match replaceDay today ((today.day : ℤ) - days) with
  | none => (rows, 0)
  | some cutoff =>
    let cutoffStr := isoformatMidnight cutoff
    let deleted := rows.filter fun r => strLtB r.updated_at.data cutoffStr.data
    let kept := rows.filter fun r => ¬ strLtB r.updated_at.data cutoffStr.data
    (kept, deleted.length)

/-! Helper lemmas shared by the claim theorems. -/

theorem temperatureAnalysis_score (w : WeatherCondition)
    (t : CropThresholds) (a : CropAnalysis) :
    (temperatureAnalysis w t a).score = a.score -
      (if w.temperature < t.temp_min then 30
       else if w.temperature > t.temp_max then 25 else 0) := by
  simp only [temperatureAnalysis]; split_ifs <;> simp

theorem temperatureAnalysis_suitable (w : WeatherCondition)
    (t : CropThresholds) (a : CropAnalysis) :
    (temperatureAnalysis w t a).suitable =
      (if w.temperature < t.temp_min then false
       else if w.temperature > t.temp_max then false
       else a.suitable) := by
  simp only [temperatureAnalysis]; split_ifs <;> rfl

theorem humidityAnalysis_score (w : WeatherCondition) (t : CropThresholds)
    (a : CropAnalysis) :
    (humidityAnalysis w t a).score = a.score -
      (if w.humidity < t.humidity_min then 15
       else if w.humidity > t.humidity_max then 10 else 0) := by
  simp only [humidityAnalysis]; split_ifs <;> simp

theorem humidityAnalysis_suitable (w : WeatherCondition)
    (t : CropThresholds) (a : CropAnalysis) :
    (humidityAnalysis w t a).suitable = a.suitable := by
  simp only [humidityAnalysis]; split_ifs <;> rfl

theorem rainfallAnalysis_score (w : WeatherCondition) (t : CropThresholds)
    (a : CropAnalysis) :
    (rainfallAnalysis w t a).score = a.score -
      (if rainfallBelowMin w t then 20
       else if w.rainfall > t.rainfall_max then 20 else 0) := by
  simp only [rainfallAnalysis]; split_ifs <;> simp

theorem rainfallAnalysis_suitable (w : WeatherCondition)
    (t : CropThresholds) (a : CropAnalysis) :
    (rainfallAnalysis w t a).suitable = a.suitable := by
  simp only [rainfallAnalysis]; split_ifs <;> rfl

theorem windAnalysis_score (w : WeatherCondition) (t : CropThresholds)
    (a : CropAnalysis) :
    (windAnalysis w t a).score = a.score -
      (if w.wind_speed > t.wind_max then 15 else 0) := by
  simp only [windAnalysis]; split_ifs <;> simp

theorem windAnalysis_suitable (w : WeatherCondition) (t : CropThresholds)
    (a : CropAnalysis) :
    (windAnalysis w t a).suitable = a.suitable := by
  simp only [windAnalysis]; split_ifs <;> rfl

theorem analyze_score_formula (w : WeatherCondition) (cropType : String) :
    (analyzeWeatherForCrop w cropType).score =
      max 0 (100 -
        (if w.temperature < (effectiveThresholds cropType).temp_min then 30
         else if w.temperature > (effectiveThresholds cropType).temp_max
           then 25 else 0) -
        (if w.humidity < (effectiveThresholds cropType).humidity_min then 15
         else if w.humidity > (effectiveThresholds cropType).humidity_max
           then 10 else 0) -
        (if rainfallBelowMin w (effectiveThresholds cropType) then 20
         else if w.rainfall > (effectiveThresholds cropType).rainfall_max
           then 20 else 0) -
        (if w.wind_speed > (effectiveThresholds cropType).wind_max
          then 15 else 0)) := by
  simp only [analyzeWeatherForCrop, windAnalysis_score,
    rainfallAnalysis_score, humidityAnalysis_score, temperatureAnalysis_score]

theorem analyze_suitable_eq (w : WeatherCondition) (cropType : String) :
    (analyzeWeatherForCrop w cropType).suitable = false ↔
      (w.temperature < (effectiveThresholds cropType).temp_min ∨
       w.temperature > (effectiveThresholds cropType).temp_max) := by
  simp only [analyzeWeatherForCrop, windAnalysis_suitable,
    rainfallAnalysis_suitable, humidityAnalysis_suitable,
    temperatureAnalysis_suitable]
  split_ifs <;> simp_all

theorem windDirIndex_cyclic (d : ℚ) (hd : 0 ≤ d) :
    windDirIndex (d + 360) = windDirIndex d := by
  have hx : (0:ℚ) ≤ (d + 45/4) / (45/2) := by positivity
  have key : ((d + 360 + 45/4) / (45/2)) =
      (d + 45/4) / (45/2) + ((16:ℤ):ℚ) := by push_cast; ring
  have hx16 : (0:ℚ) ≤ (d + 45/4) / (45/2) + ((16:ℤ):ℚ) := by
    push_cast; positivity
  unfold windDirIndex pythonInt
  rw [key, if_pos hx16, if_pos hx, Int.floor_add_int]
  omega

/-! Theorems settling the claims. -/

/-- C4: `analyze_weather_for_crop` starts from score 100 and subtracts
30/25 for temperature below-min/above-max, 15/10 for humidity
below-min/above-max, 20 for rainfall outside the band (the minimum is
present only in the rice row), 15 for wind over the crop maximum, and
floors at 0; for coffee, 35°C/70%/50mm/10km/h scores exactly 75 and is
unsuitable, and 22°C/70%/50mm/10km/h scores 100, suitable, with an empty
issue list. -/
theorem claim_C4_crop_scoring :
    (∀ (w : WeatherCondition) (cropType : String),
      (analyzeWeatherForCrop w cropType).score =
        max 0 (100 -
          (if w.temperature < (effectiveThresholds cropType).temp_min
            then 30
           else if w.temperature > (effectiveThresholds cropType).temp_max
            then 25 else 0) -
          (if w.humidity < (effectiveThresholds cropType).humidity_min
            then 15
           else if w.humidity > (effectiveThresholds cropType).humidity_max
            then 10 else 0) -
          (if rainfallBelowMin w (effectiveThresholds cropType) then 20
           else if w.rainfall > (effectiveThresholds cropType).rainfall_max
            then 20 else 0) -
          (if w.wind_speed > (effectiveThresholds cropType).wind_max
            then 15 else 0))) ∧
    (effectiveThresholds "rice").rainfall_min = some 100 ∧
    (effectiveThresholds "coffee").rainfall_min = none ∧
    (effectiveThresholds "potato").rainfall_min = none ∧
    (effectiveThresholds "pepper").rainfall_min = none ∧
    effectiveThresholds "coffee" = ⟨15, 30, 60, 80, none, 200, 15⟩ ∧
    (analyzeWeatherForCrop coffeeHotReading "coffee").score = 75 ∧
    (analyzeWeatherForCrop coffeeHotReading "coffee").suitable = false ∧
    analyzeWeatherForCrop coffeeMildReading "coffee" =
      ⟨"coffee", true, [], [], 100⟩ := by
  have ht : effectiveThresholds "coffee" = ⟨15, 30, 60, 80, none, 200, 15⟩ :=
    rfl
  have hk : effectiveCropKey "coffee" = "coffee" := rfl
  refine ⟨analyze_score_formula, rfl, rfl, rfl, rfl, ht, ?_, ?_, ?_⟩
  · rw [analyze_score_formula, ht]
    norm_num [rainfallBelowMin, coffeeHotReading]
  · rw [analyze_suitable_eq, ht]
    norm_num [coffeeHotReading]
  · simp only [analyzeWeatherForCrop, ht, hk, temperatureAnalysis,
      humidityAnalysis, rainfallAnalysis, rainfallBelowMin, windAnalysis,
      coffeeMildReading]
    norm_num

/-- C9: `analyze_weather_for_crop` reports `suitable = false` exactly when
the temperature is below the crop minimum or above the crop maximum;
humidity, rainfall and wind violations lower the score but never the
flag, so a reading with in-range temperature and every other threshold
violated is still suitable. -/
theorem claim_C9_suitable_iff_temperature :
    (∀ (w : WeatherCondition) (cropType : String),
      ((analyzeWeatherForCrop w cropType).suitable = false ↔
        (w.temperature < (effectiveThresholds cropType).temp_min ∨
         w.temperature > (effectiveThresholds cropType).temp_max))) ∧
    (analyzeWeatherForCrop coffeeExtremeReading "coffee").suitable = true ∧
    (analyzeWeatherForCrop coffeeExtremeReading "coffee").score = 55 := by
  have ht : effectiveThresholds "coffee" = ⟨15, 30, 60, 80, none, 200, 15⟩ :=
    rfl
  refine ⟨analyze_suitable_eq, ?_, ?_⟩
  · rcases h : (analyzeWeatherForCrop coffeeExtremeReading "coffee").suitable
    · exfalso
      have h2 := (analyze_suitable_eq coffeeExtremeReading "coffee").mp h
      rw [ht] at h2
      simp only [coffeeExtremeReading] at h2
      norm_num at h2
    · rfl
  · rw [analyze_score_formula, ht]
    norm_num [rainfallBelowMin, coffeeExtremeReading]

/-- C9 witness: the 35°C coffee reading is reported unsuitable through the
equivalence. -/
theorem claim_C9_suitable_witness :
    (analyzeWeatherForCrop coffeeHotReading "coffee").suitable = false :=
  (claim_C9_suitable_iff_temperature.1 coffeeHotReading "coffee").mpr
    (Or.inr (by
      have ht : effectiveThresholds "coffee" =
        ⟨15, 30, 60, 80, none, 200, 15⟩ := rfl
      rw [ht]
      norm_num [coffeeHotReading]))

/-- C2 counterexample: the code truncates with `int()` rather than
rounding, so 11.26° lands at compass index 1 ("Bắc Đông Bắc"), not 0, and
at 25° the rounded formula of the specification disagrees with the code's
index. -/
theorem claim_C2_counterexample :
    windDirIndex (1126/100) ≠ 0 ∧ windDirIndex (1126/100) = 1 ∧
    getWindDirectionText (1126/100) = "Bắc Đông Bắc" ∧
    specRoundWindDirIndex 25 ≠ windDirIndex 25 := by
  have h1 : windDirIndex (1126/100) = 1 := by
    norm_num [windDirIndex, pythonInt]
  have h2 : specRoundWindDirIndex 25 = 2 := by
    norm_num [specRoundWindDirIndex, round_eq]
  have h3 : windDirIndex 25 = 1 := by
    norm_num [windDirIndex, pythonInt]
  refine ⟨by rw [h1]; decide, h1, ?_, by rw [h2, h3]; decide⟩
  simp only [getWindDirectionText]
  rw [h1]
  rfl

/-- C2 amended: the compass mapping computes
`index = int((deg + 11.25) / 22.5) mod 16` (truncation, not rounding);
degrees 0, 11.24 and 360 map to index 0 ("Bắc"), degree 11.26 maps to
index 1, degree 180 maps to index 8 ("Nam"), and the mapping is cyclic at
the 360° boundary for non-negative degrees. -/
theorem claim_C2_wind_banding :
    (∀ d : ℚ, 0 ≤ d → windDirIndex (d + 360) = windDirIndex d) ∧
    windDirIndex 0 = 0 ∧ windDirIndex (1124/100) = 0 ∧
    windDirIndex (1126/100) = 1 ∧ windDirIndex 360 = 0 ∧
    windDirIndex 180 = 8 ∧
    getWindDirectionText 0 = "Bắc" ∧ getWindDirectionText 180 = "Nam" := by
  have h0 : windDirIndex 0 = 0 := by norm_num [windDirIndex, pythonInt]
  have h180 : windDirIndex 180 = 8 := by norm_num [windDirIndex, pythonInt]
  refine ⟨windDirIndex_cyclic, h0, ?_, ?_, ?_, h180, ?_, ?_⟩
  · norm_num [windDirIndex, pythonInt]
  · norm_num [windDirIndex, pythonInt]
  · norm_num [windDirIndex, pythonInt]
  · simp only [getWindDirectionText]; rw [h0]; rfl
  · simp only [getWindDirectionText]; rw [h180]; rfl

/-- C2 witness: the cyclicity conjunct applied at 5°. -/
theorem claim_C2_wind_banding_witness :
    windDirIndex (5 + 360) = windDirIndex 5 :=
  claim_C2_wind_banding.1 5 (by norm_num)

/-- C3: for every location, when the provider call raises or returns a
non-200 status, `get_current_weather` returns the fixed demo record
(28.0°C, feels-like 32.0°C, 78 % humidity, 12.5 km/h SW wind, 1013 hPa)
rather than an absent result, and the record's location name is the input
location with ", VN" appended. -/
theorem claim_C3_weather_fallback (dewPoint : ℚ → ℚ → ℚ) (now : ℚ)
    (location : String) (outcome : ApiOutcome)
    (h : apiOutcomeFailed outcome = true) :
    getCurrentWeather dewPoint now location outcome =
      some (demoWeatherData now location) ∧
    (demoWeatherData now location).location_name = location ++ ", VN" ∧
    (demoWeatherData now location).temperature = 28 ∧
    (demoWeatherData now location).feels_like = 32 ∧
    (demoWeatherData now location).humidity = 78 ∧
    (demoWeatherData now location).wind_speed = 125/10 ∧
    (demoWeatherData now location).wind_direction = 225 ∧
    (demoWeatherData now location).wind_direction_text = "SW" ∧
    (demoWeatherData now location).pressure = 1013 := by
  refine ⟨?_, rfl, rfl, rfl, rfl, rfl, rfl, rfl, rfl⟩
  cases outcome with
  | exn => rfl
  | response status data =>
    simp only [apiOutcomeFailed, decide_eq_true_eq] at h
    simp only [getCurrentWeather, if_neg h]

/-- C3 witness: the fallback theorem applied to a raising provider call
for the location "Hà Nội". -/
theorem claim_C3_weather_fallback_witness :
    getCurrentWeather (fun _ _ => 0) 0 "Hà Nội" .exn =
      some (demoWeatherData 0 "Hà Nội") ∧
    (demoWeatherData 0 "Hà Nội").location_name = "Hà Nội" ++ ", VN" ∧
    (demoWeatherData 0 "Hà Nội").temperature = 28 ∧
    (demoWeatherData 0 "Hà Nội").feels_like = 32 ∧
    (demoWeatherData 0 "Hà Nội").humidity = 78 ∧
    (demoWeatherData 0 "Hà Nội").wind_speed = 125/10 ∧
    (demoWeatherData 0 "Hà Nội").wind_direction = 225 ∧
    (demoWeatherData 0 "Hà Nội").wind_direction_text = "SW" ∧
    (demoWeatherData 0 "Hà Nội").pressure = 1013 :=
  claim_C3_weather_fallback (fun _ _ => 0) 0 "Hà Nội" .exn rfl

/-- C1 counterexample: on the demo weather (28°C, 78 %, 12.5 km/h) the
load-bearing later-defined `generate_agriculture_advice` returns
confidence 0.8, while the current-condition suitability score for coffee
is 100, so score ÷ 100 = 1 ≠ 0.8. -/
theorem claim_C1_counterexample :
    (generateAgricultureAdvice (fun _ _ => 0) 0 "Buôn Ma Thuột" "coffee"
      false .exn []).map AgricultureAdvice.confidence = some (4/5) ∧
    ((analyzeWeatherForCrop (demoWeatherData 0 "Buôn Ma Thuột")
      "coffee").score : ℚ) / 100 = 1 ∧
    (4/5 : ℚ) ≠ 1 := by
  refine ⟨?_, ?_, by norm_num⟩
  · show some (adviceConfidence (demoWeatherData 0 "Buôn Ma Thuột")) =
      some (4/5)
    norm_num [adviceConfidence, demoWeatherData]
  · rw [analyze_score_formula]
    have ht : effectiveThresholds "coffee" =
      ⟨15, 30, 60, 80, none, 200, 15⟩ := rfl
    rw [ht]
    norm_num [rainfallBelowMin, demoWeatherData]

/-- C1 amended: the later-defined `generate_agriculture_advice` returns an
advice whose confidence is 0.8, lowered by 0.2 when the temperature is
above 35 or below 10, by 0.1 when the humidity is above 90 or below 20,
and by 0.1 when the wind speed is above 30 — independent of the crop
suitability score. -/
theorem claim_C1_advice_confidence (dewPoint : ℚ → ℚ → ℚ) (now : ℚ)
    (location cropType : String) (includeForecast : Bool)
    (outcome : ApiOutcome) (forecast : List WeatherCondition) :
    (generateAgricultureAdvice dewPoint now location cropType
        includeForecast outcome forecast).map AgricultureAdvice.confidence =
      some (
        let w := (getCurrentWeather dewPoint now location outcome).getD
          (demoWeatherData now location)
        8/10 - (if w.temperature > 35 ∨ w.temperature < 10 then 2/10 else 0)
          - (if w.humidity > 90 ∨ w.humidity < 20 then 1/10 else 0)
          - (if w.wind_speed > 30 then 1/10 else 0)) := by
  show some (adviceConfidence _) = _
  simp only [adviceConfidence]
  split_ifs <;> norm_num

theorem listContainsSub_iff_infix (needle hay : List Char) :
    listContainsSub needle hay = true ↔ needle <:+: hay := by
  induction hay with
  | nil =>
    simp [listContainsSub, List.isEmpty_iff, List.infix_nil]
  | cons c rest ih =>
    simp [listContainsSub, List.isPrefixOf_iff_prefix, ih,
      List.infix_cons_iff]

theorem isCriticalError_iff (e : String) :
    isCriticalError e = true ↔
      ("validation".data <:+: (pyLower e).data ∨
       "critical".data <:+: (pyLower e).data) := by
  simp [isCriticalError, strContains, listContainsSub_iff_infix]

/-- C5: after intent analysis, a state routes to End exactly when some
recorded error contains the substring "validation" or "critical"
(case-insensitive), the intent is absent, or the confidence (defaulted to
0.0 when missing) is exactly 0.0; every other state routes to the action
execution node, and the two targets are distinct. -/
theorem claim_C5_routing (s : RoutingState) :
    (routeAfterIntentAnalysis s = END ↔
      ((∃ e ∈ s.errors,
          ("validation".data <:+: (pyLower e).data ∨
           "critical".data <:+: (pyLower e).data)) ∨
        s.intent = none ∨ s.confidence.getD 0 = 0)) ∧
    (routeAfterIntentAnalysis s = ACTION_EXECUTION_NODE ↔
      ¬ ((∃ e ∈ s.errors,
          ("validation".data <:+: (pyLower e).data ∨
           "critical".data <:+: (pyLower e).data)) ∨
        s.intent = none ∨ s.confidence.getD 0 = 0)) ∧
    END ≠ ACTION_EXECUTION_NODE := by
  have hne : END ≠ ACTION_EXECUTION_NODE := by decide
  have hiff : (∃ e ∈ s.errors, isCriticalError e = true) ↔
      (∃ e ∈ s.errors,
        ("validation".data <:+: (pyLower e).data ∨
         "critical".data <:+: (pyLower e).data)) := by
    simp only [isCriticalError_iff]
  unfold routeAfterIntentAnalysis
  by_cases hc : ∃ e ∈ s.errors, isCriticalError e = true
  · have hfe : ¬ (s.errors.filter isCriticalError).isEmpty = true := by
      simp only [List.isEmpty_iff, List.filter_eq_nil_iff]
      push_neg
      exact hc
    rw [if_pos hfe]
    have hcond : (∃ e ∈ s.errors,
        ("validation".data <:+: (pyLower e).data ∨
         "critical".data <:+: (pyLower e).data)) ∨
        s.intent = none ∨ s.confidence.getD 0 = 0 := Or.inl (hiff.mp hc)
    exact ⟨iff_of_true rfl hcond,
      iff_of_false hne (fun hn => hn hcond), hne⟩
  · have hfe : ¬¬ (s.errors.filter isCriticalError).isEmpty = true := by
      simp only [List.isEmpty_iff, List.filter_eq_nil_iff]
      intro hnall
      push_neg at hnall
      exact hc hnall
    rw [if_neg hfe]
    by_cases hic : s.intent = none ∨ s.confidence.getD 0 = 0
    · rw [if_pos hic]
      have hcond : (∃ e ∈ s.errors,
          ("validation".data <:+: (pyLower e).data ∨
           "critical".data <:+: (pyLower e).data)) ∨
          s.intent = none ∨ s.confidence.getD 0 = 0 := Or.inr hic
      exact ⟨iff_of_true rfl hcond,
        iff_of_false hne (fun hn => hn hcond), hne⟩
    · rw [if_neg hic]
      have hcond : ¬ ((∃ e ∈ s.errors,
          ("validation".data <:+: (pyLower e).data ∨
           "critical".data <:+: (pyLower e).data)) ∨
          s.intent = none ∨ s.confidence.getD 0 = 0) := by
        rintro (hq | hrest)
        · exact hc (hiff.mpr hq)
        · exact hic hrest
      exact ⟨iff_of_false (fun h => hne h.symm) hcond,
        iff_of_true rfl hcond, hne⟩

/-- C5 witness: a state with no errors, absent intent and absent
confidence routes to End. -/
theorem claim_C5_routing_witness :
    routeAfterIntentAnalysis ⟨[], none, none⟩ = END :=
  (claim_C5_routing ⟨[], none, none⟩).1.mpr (Or.inr (Or.inl rfl))

/-- C6: under the Vietnamese-model tier the ceiling is 400; stored content
longer than 400 characters is truncated to exactly 400 characters ending
in the literal "..." (the first 397 original characters plus the
ellipsis), content of at most 400 characters is stored unchanged, and
every document kept by `add_documents` carries exactly the truncation of
its original content. -/
theorem claim_C6_truncation :
    maxTextLength = 400 ∧
    (∀ text : List Char, 400 < text.length →
      ((truncateText maxTextLength text).length = 400 ∧
       truncateText maxTextLength text = text.take 397 ++ "...".data ∧
       (truncateText maxTextLength text).drop 397 = "...".data)) ∧
    (∀ text : List Char, text.length ≤ 400 →
      truncateText maxTextLength text = text) ∧
    (∀ (documents : List IngestDocument) (d : IngestDocument),
      d ∈ validDocuments maxTextLength documents →
      ∃ d0 ∈ documents,
        d.page_content = truncateText maxTextLength d0.page_content) := by
  have hmax : maxTextLength = 400 := rfl
  refine ⟨rfl, fun text hlen => ?_, fun text hlen => ?_,
    fun documents d hd => ?_⟩
  · have hnot : ¬ text.length ≤ (400:ℕ) := by omega
    have heq : truncateText maxTextLength text =
        text.take 397 ++ "...".data := by
      simp only [truncateText, hmax, if_neg hnot]
    have htake : (text.take 397).length = 397 := by
      rw [List.length_take]; omega
    refine ⟨?_, heq, ?_⟩
    · rw [heq, List.length_append, htake]; rfl
    · rw [heq, List.drop_left' htake]
  · have hok : text.length ≤ maxTextLength := by rw [hmax]; omega
    simp only [truncateText, if_pos hok]
  · simp only [validDocuments, List.mem_filterMap] at hd
    obtain ⟨a, ha, hf⟩ := hd
    refine ⟨a, ha, ?_⟩
    by_cases he : (pyStrip a.page_content).isEmpty
    · rw [if_pos he] at hf; cases hf
    · rw [if_neg he] at hf
      cases hf
      rfl

/-- C6 witness: the truncation conjunct applied to a 401-character text. -/
theorem claim_C6_truncation_witness :
    (truncateText maxTextLength (List.replicate 401 'a')).length = 400 ∧
    truncateText maxTextLength (List.replicate 401 'a') =
      (List.replicate 401 'a').take 397 ++ "...".data ∧
    (truncateText maxTextLength (List.replicate 401 'a')).drop 397 =
      "...".data :=
  claim_C6_truncation.2.1 (List.replicate 401 'a')
    (by rw [List.length_replicate]; norm_num)

theorem pyStrip_ne_nil_of_data (c : String)
    (h : ¬ (pyStrip c.data).isEmpty = true) : c ≠ "" := by
  intro hc
  subst hc
  exact h rfl

/-- C7: `search_knowledge_base` never raises; when every retriever call
succeeds with nothing (empty context, sources and scored results) it
returns `has_results = false`, zero average and maximum confidence, and an
empty sources list; `has_results` is true exactly when the context string
is non-empty after stripping; and any raising retriever call yields the
same zeroed shape carrying the exception text. -/
theorem claim_C7_search_no_results (r : RetrieverBehavior) :
    (r.relevantContext = .ok "" → r.documentSources = .ok [] →
      r.resultsWithScores = .ok [] →
      searchKnowledgeBase r =
        { context := "", sources := [], results_count := 0,
          avg_confidence := 0, max_confidence := 0, has_results := false,
          error := none }) ∧
    (∀ context sources results,
      r.relevantContext = .ok context → r.documentSources = .ok sources →
      r.resultsWithScores = .ok results →
      ((searchKnowledgeBase r).has_results = true ↔
        ¬ (pyStrip context.data).isEmpty = true)) ∧
    (∀ e : String,
      (r.relevantContext = .error e ∨
       (∃ c, r.relevantContext = .ok c ∧ r.documentSources = .error e) ∨
       (∃ c s, r.relevantContext = .ok c ∧ r.documentSources = .ok s ∧
         r.resultsWithScores = .error e)) →
      searchKnowledgeBase r =
        { context := "", sources := [], results_count := 0,
          avg_confidence := 0, max_confidence := 0, has_results := false,
          error := some e }) := by
  refine ⟨fun h1 h2 h3 => ?_, fun context sources results h1 h2 h3 => ?_,
    fun e he => ?_⟩
  · simp only [searchKnowledgeBase, h1, h2, h3]
    rfl
  · simp only [searchKnowledgeBase, h1, h2, h3]
    show ((decide (context ≠ "") &&
      decide (¬ (pyStrip context.data).isEmpty)) = true) ↔ _
    simp only [Bool.and_eq_true, decide_eq_true_eq]
    constructor
    · rintro ⟨-, h⟩; exact h
    · intro h; exact ⟨pyStrip_ne_nil_of_data context h, h⟩
  · rcases he with h1 | ⟨c, h1, h2⟩ | ⟨c, s, h1, h2, h3⟩
    · simp only [searchKnowledgeBase, h1]
      rfl
    · simp only [searchKnowledgeBase, h1, h2]
      rfl
    · simp only [searchKnowledgeBase, h1, h2, h3]
      rfl

/-- C7 witness: the empty-retrieval conjunct applied to a behaviour whose
three calls return an empty context, no sources and no scores. -/
theorem claim_C7_search_no_results_witness :
    searchKnowledgeBase ⟨.ok "", .ok [], .ok []⟩ =
      { context := "", sources := [], results_count := 0,
        avg_confidence := 0, max_confidence := 0, has_results := false,
        error := none } :=
  (claim_C7_search_no_results ⟨.ok "", .ok [], .ok []⟩).1 rfl rfl rfl

theorem keywordContribution_nonneg (content filename : List Char)
    (kw : String) : 0 ≤ keywordContribution content filename kw := by
  simp only [keywordContribution]
  have h1 : (0:ℚ) ≤
      min ((countOccs (normalizeText kw.data) content : ℚ) / 5) 1 :=
    le_min (by positivity) (by norm_num)
  have hm : (0:ℚ) ≤ (6/10) *
      min ((countOccs (normalizeText kw.data) content : ℚ) / 5) 1 := by
    linarith
  split_ifs <;> linarith

theorem relatedContribution_nonneg (content : List Char) (tm : String) :
    0 ≤ relatedContribution content tm := by
  simp only [relatedContribution]
  split_ifs <;> norm_num

theorem cropScore_nonneg (content filename : List Char)
    (data : CropEntityData) : 0 ≤ cropScore content filename data := by
  refine le_min (add_nonneg ?_ ?_) zero_le_one
  · refine List.sum_nonneg ?_
    intro x hx
    obtain ⟨kw, -, rfl⟩ := List.mem_map.mp hx
    exact keywordContribution_nonneg content filename kw
  · refine List.sum_nonneg ?_
    intro x hx
    obtain ⟨tm, -, rfl⟩ := List.mem_map.mp hx
    exact relatedContribution_nonneg content tm

theorem cropScore_le_one (content filename : List Char)
    (data : CropEntityData) : cropScore content filename data ≤ 1 :=
  min_le_right _ _

/-- C8: `calculate_document_relevance` lies in [0, 1] for every document
and non-empty crop list (each per-crop score is capped at 1 and the total
is divided by the number of crops), and equals exactly 1 for every
document when the crop list is empty. -/
theorem claim_C8_relevance_bounds :
    (∀ (doc : FilterDocument) (crops : List String), crops ≠ [] →
      0 ≤ calculateDocumentRelevance doc crops ∧
      calculateDocumentRelevance doc crops ≤ 1) ∧
    (∀ doc : FilterDocument, calculateDocumentRelevance doc [] = 1) := by
  refine ⟨fun doc crops hne => ?_, fun doc => rfl⟩
  have hlen : 0 < (crops.length : ℚ) := by
    have := List.length_pos.mpr hne
    exact_mod_cast this
  have hempty : ¬ crops.isEmpty = true := by
    simp [List.isEmpty_iff, hne]
  simp only [calculateDocumentRelevance, if_neg hempty, if_pos hlen]
  set content := normalizeText doc.page_content.data
  set filename := normalizeText doc.filename.data
  have hsum0 : 0 ≤ (crops.map fun crop =>
      cropScore content filename
        ((cropEntities.lookup crop).getD ⟨[], []⟩)).sum := by
    refine List.sum_nonneg ?_
    intro x hx
    obtain ⟨crop, -, rfl⟩ := List.mem_map.mp hx
    exact cropScore_nonneg _ _ _
  have hsum1 : (crops.map fun crop =>
      cropScore content filename
        ((cropEntities.lookup crop).getD ⟨[], []⟩)).sum ≤
        (crops.length : ℚ) := by
    have h := List.sum_le_card_nsmul (crops.map fun crop =>
      cropScore content filename
        ((cropEntities.lookup crop).getD ⟨[], []⟩)) 1 ?_
    · simpa [List.length_map, nsmul_eq_mul] using h
    · intro x hx
      obtain ⟨crop, -, rfl⟩ := List.mem_map.mp hx
      exact cropScore_le_one _ _ _
  constructor
  · exact div_nonneg hsum0 (le_of_lt hlen)
  · rw [div_le_one hlen]
    exact hsum1

/-- C8 witness: the bounds conjunct applied to an empty document and the
single crop "lúa". -/
theorem claim_C8_relevance_bounds_witness :
    0 ≤ calculateDocumentRelevance ⟨"", ""⟩ ["lúa"] ∧
    calculateDocumentRelevance ⟨"", ""⟩ ["lúa"] ≤ 1 :=
  claim_C8_relevance_bounds.1 ⟨"", ""⟩ ["lúa"] (by simp)

/-- C10: whenever `days` is at least the current calendar day of month,
the naive day subtraction of `clear_old_sessions` raises, the exception is
caught before any database access, no session row is deleted, and the
function returns 0. -/
theorem claim_C10_clear_old_sessions (rows : List SessionRow) (today : Date)
    (days : ℤ) (h : (today.day : ℤ) ≤ days) :
    clearOldSessions rows today days = (rows, 0) := by
  have hcond : ¬ (1 ≤ (today.day : ℤ) - days ∧ (today.day : ℤ) - days ≤
      (daysInMonth today.year today.month : ℤ)) := by omega
  unfold clearOldSessions replaceDay
  rw [if_neg hcond]

/-- C10 witness: the default `days = 30` on 2026-10-12 leaves the single
stored session untouched and returns 0. -/
theorem claim_C10_clear_old_sessions_witness :
    clearOldSessions [⟨"s1", "2024-01-01T00:00:00"⟩] ⟨2026, 10, 12⟩ 30 =
      ([⟨"s1", "2024-01-01T00:00:00"⟩], 0) :=
  claim_C10_clear_old_sessions _ _ _ (by norm_num)

end DSC
